import Mathlib

/-!
Shallow embedding of `src/predict.py` (cog-realvisxl2-lora-inference).

The repository is a single request handler (`Predictor.predict`) over
third-party diffusion pipelines.  We embed the data flow of the handler:
the request record, the mode selection among the three pipelines, the
construction of the keyword-argument dictionaries, the adapter-archive
download and weight merge, the seed handling, the refiner hand-off and
the output serialization loop.  The opaque parts (the diffusion
pipelines themselves, the files on disk, the OS entropy source) are
supplied by an `Env` record of abstract functions; the handler's own
logic is translated line by line.
-/

namespace RealVisXL

/-- Pipeline-produced images are opaque values. -/
abbrev GenImage := Nat

/-- Weight tensors are opaque values. -/
abbrev Tensor := Nat

/-- A PIL image as far as `Predictor.load_image` observes it: its size
(`img.size` in the source).  Pixel content plays no role in the handler's
own logic. -/
structure PILImage where
  width : Nat
  height : Nat
  deriving Repr, DecidableEq

/-- Embeds `Predictor.load_image` (predict.py lines 167-182).  The source
computes `new_width = math.ceil(width / 64) * 64` (same for height) and
calls `img.resize` only when a dimension changed; for natural-number
dimensions `math.ceil(n / 64)` is `(n + 63) / 64` in truncating division.
Returns the resulting image together with the flag of whether `resize`
was invoked.  (The final `convert("RGB")` does not change the size.) -/
def load_image (img : PILImage) : PILImage × Bool :=
  let new_width := (img.width + 63) / 64 * 64
  let new_height := (img.height + 63) / 64 * 64
  if new_width ≠ img.width ∨ new_height ≠ img.height then
    ({ width := new_width, height := new_height }, true)
  else
    (img, false)

/-- Embeds predict.py lines 96-98: `sd = pipe.unet.state_dict();
sd.update(new_unet_params); pipe.unet.load_state_dict(sd)`.  A state
dictionary is a finite map, modelled by its lookup function; Python's
`dict.update` makes the archive's binding win on every key it holds and
keeps the model's binding elsewhere, and `load_state_dict` installs the
updated dictionary wholesale. -/
def load_unet_merge (sd new_unet_params : String → Option Tensor) :
    String → Option Tensor :=
  fun k =>
    match new_unet_params k with
    | some v => some v
    | none => sd k

/-- Embeds predict.py lines 379-380: `for k, v in self.token_map.items():
prompt = prompt.replace(k, v)`. -/
def applyTokenMap (token_map : List (String × String)) (prompt : String) :
    String :=
  token_map.foldl (fun acc kv => acc.replace kv.1 kv.2) prompt

/-- Embeds predict.py lines 372-373: `seed = int.from_bytes(os.urandom(2),
"big")` when the request's seed is `None`, the caller's seed otherwise.
The two OS-random bytes are passed in explicitly. -/
def seedOf (seed : Option Int) (urandom2 : Fin 256 × Fin 256) : Int :=
  match seed with
  | some s => s
  | none => (urandom2.1.val * 256 + urandom2.2.val : Nat)

/-- The three generation pipelines held by the predictor
(`self.txt2img_pipe`, `self.img2img_pipe`, `self.inpaint_pipe`). -/
inductive Mode where
  | txt2img
  | img2img
  | inpaint
  deriving Repr, DecidableEq

/-- The prediction request: the parameters of `Predictor.predict`
(predict.py lines 185-265), with their declared defaults.  Python floats
are carried as exact rationals; `None`-able inputs are `Option`s. -/
structure Request where
  lora_url : Option String
  prompt : String := "A photo of TOK"
  negative_prompt : String := ""
  image : Option String := none
  mask : Option String := none
  width : Int := 1024
  height : Int := 1024
  num_outputs : Nat := 1
  scheduler : String := "DPMSolverMultistep"
  num_inference_steps : Int := 50
  guidance_scale : ℚ := 15 / 2
  prompt_strength : ℚ := 4 / 5
  seed : Option Int := none
  refine : String := "no_refiner"
  high_noise_frac : ℚ := 4 / 5
  refine_steps : Option Int := none
  apply_watermark : Bool := true
  lora_scale : ℚ := 3 / 5

/-- The `sdxl_kwargs` dictionary built by `predict` (lines 376-431).  Each
key the handler may insert is a field; `none` means the key is absent. -/
structure SdxlKwargs where
  image : Option PILImage := none
  mask_image : Option PILImage := none
  strength : Option ℚ := none
  width : Option Int := none
  height : Option Int := none
  target_size : Option (Nat × Nat) := none
  original_size : Option (Nat × Nat) := none
  output_type : Option String := none
  denoising_end : Option ℚ := none
  cross_attention_scale : Option ℚ := none
  deriving Repr, DecidableEq

/-- The `common_args` dictionary (predict.py lines 422-428).  The
`generator` entry is represented by the seed it was constructed from
(`torch.Generator("cuda").manual_seed(seed)`). -/
structure CommonArgs where
  prompt : List String
  negative_prompt : List String
  guidance_scale : ℚ
  generator_seed : Int
  num_inference_steps : Int
  deriving Repr, DecidableEq

/-- The `refiner_kwargs` dictionary (predict.py lines 436-441). -/
structure RefinerKwargs where
  image : List GenImage
  denoising_start : Option ℚ := none
  deriving Repr, DecidableEq

/-- The extracted contents of the remote adapter archive:
`unet.safetensors` when present, `lora.safetensors`, and
`special_params.json` (the token map). -/
structure Archive where
  unet : Option (String → Option Tensor)
  lora : String → Option Tensor
  token_map : List (String × String)

/-- The opaque surroundings of the handler: the files named by image
paths, the archive behind each URL, the base model weights, the two
pipelines and the refiner as black-box functions, and the two bytes
`os.urandom(2)` would return. -/
structure Env where
  diskImage : String → PILImage
  archive : String → Archive
  baseUnetSd : String → Option Tensor
  runPipe : Mode → CommonArgs → SdxlKwargs → List GenImage
  runRefiner : CommonArgs → RefinerKwargs → List GenImage
  urandom2 : Fin 256 × Fin 256

/-- The predictor's instance attributes that survive between calls
(`self.tuned_model`, `self.token_map`, `self.is_lora`). -/
structure State where
  tuned_model : Bool
  token_map : List (String × String)
  is_lora : Bool
  deriving Repr, DecidableEq

/-- Embeds `Predictor.setup` (predict.py lines 160-164): it only sets
`self.tuned_model = False`.  (`token_map` and `is_lora` are not assigned
in `setup`; `predict` assigns both before reading them, so their initial
values are immaterial and we pick defaults.) -/
def setup : State :=
  { tuned_model := false, token_map := [], is_lora := false }

/-- Result of `Predictor.load_trained_weights` (predict.py lines 74-158):
the merged UNet state dictionary, the `is_lora` flag decided by the
presence of `unet.safetensors` in the archive, and the token map read
from `special_params.json`.  The LoRA branch's attention-processor
surgery is abstracted to a key-by-key non-strict load of the LoRA
tensors (`unet.load_state_dict(tensors, strict=False)`). -/
structure LoadResult where
  unetSd : String → Option Tensor
  is_lora : Bool
  token_map : List (String × String)

/-- Embeds `Predictor.load_trained_weights` (predict.py lines 74-158),
given the already-downloaded archive contents. -/
def load_trained_weights (ar : Archive) (unetSd : String → Option Tensor) :
    LoadResult :=
  match ar.unet with
  | some new_unet_params =>
      { unetSd := load_unet_merge unetSd new_unet_params
        is_lora := false
        token_map := ar.token_map }
  | none =>
      { unetSd := load_unet_merge unetSd ar.lora
        is_lora := true
        token_map := ar.token_map }

/-- Embeds predict.py lines 382-405: the three-way branch on `image` and
`mask` choosing the pipeline and filling the mode-specific entries of
`sdxl_kwargs`.  (A cog `Path`, when not `None`, is always truthy, so
Python's `if image and mask` is presence of both.) -/
def buildModeKwargs (env : Env) (req : Request) : Mode × SdxlKwargs :=
  match req.image, req.mask with
  | some imagePath, some maskPath =>
      let loaded_image := (load_image (env.diskImage imagePath)).1
      (Mode.inpaint,
        { image := some loaded_image
          mask_image := some (load_image (env.diskImage maskPath)).1
          strength := some req.prompt_strength
          target_size := some (loaded_image.width, loaded_image.height)
          original_size := some (loaded_image.width, loaded_image.height) })
  | some imagePath, none =>
      (Mode.img2img,
        { image := some (load_image (env.diskImage imagePath)).1
          strength := some req.prompt_strength })
  | none, _ =>
      (Mode.txt2img, { width := some req.width, height := some req.height })

/-- Embeds predict.py lines 407-411: the refine-mode additions to
`sdxl_kwargs`. -/
def addRefineKwargs (refine : String) (high_noise_frac : ℚ)
    (k : SdxlKwargs) : SdxlKwargs :=
  if refine = "expert_ensemble_refiner" then
    { k with output_type := some "latent", denoising_end := some high_noise_frac }
  else if refine = "base_image_refiner" then
    { k with output_type := some "latent" }
  else k

/-- Embeds predict.py lines 430-431: `if self.is_lora:
sdxl_kwargs["cross_attention_kwargs"] = \x7b"scale": lora_scale\x7d`. -/
def addLoraKwargs (is_lora : Bool) (lora_scale : ℚ) (k : SdxlKwargs) :
    SdxlKwargs :=
  if is_lora then { k with cross_attention_scale := some lora_scale } else k

/-- Embeds predict.py lines 447-454: the output loop saves image `i` to
`/tmp/out-i.png` and appends that path, in order. -/
def savedOutputs (images : List GenImage) : List (String × GenImage) :=
  images.enum.map fun p => ("/tmp/out-" ++ toString p.1 ++ ".png", p.2)

/-- The `output_paths` list returned from the loop of lines 447-454. -/
def output_paths (images : List GenImage) : List String :=
  (savedOutputs images).map Prod.fst

/-- Embeds predict.py lines 442-443: `if refine == "base_image_refiner"
and refine_steps: common_args["num_inference_steps"] = refine_steps`.
Python truthiness: `refine_steps` is falsy when `None` or 0. -/
def refinerStepsArgs (refine : String) (refine_steps : Option Int)
    (common : CommonArgs) : CommonArgs :=
  match refine_steps with
  | some n =>
      if refine = "base_image_refiner" ∧ n ≠ 0 then
        { common with num_inference_steps := n }
      else common
  | none => common

/-- Everything one call of `predict` returns or does to the outside:
the returned value (`.ok` paths) or the raised exception (`.error`
message), the state left in the predictor, the archive URLs fetched with
`requests.get`, the number of weight-merge operations into the model,
the single pipeline call, the refiner call when one happens, the
`image.save` calls in order, the final `output.images`, and the seed fed
to the generator. -/
structure PredictOutcome where
  result : Except String (List String)
  state : State
  downloads : List String
  merges : Nat
  pipeCall : Option (Mode × CommonArgs × SdxlKwargs)
  refinerCall : Option (CommonArgs × RefinerKwargs)
  saves : List (String × GenImage)
  images : List GenImage
  seedUsed : Option Int
  deriving Repr

/-- Embeds `Predictor.predict` (predict.py lines 184-461).  The body in
order: the `lora_url == None` guard (lines 267-271); the unconditional
`lora = True` branch (lines 273-323) which loads the pipelines, fetches
and extracts the adapter archive, merges its weights via
`load_trained_weights`, and leaves `self.is_lora = True` (line 286
executes after the load) and `self.tuned_model = True` (line 158);
seeding (lines 372-374); token-map prompt substitution (lines 377-380,
always taken since `tuned_model` was just set); the mode branch (lines
382-405); refine kwargs (407-411); `common_args` (422-428); the LoRA
scale kwarg (430-431); the pipeline call (433); the refiner hand-off
(435-445); and the save loop with the NSFW-empty check (447-461). -/
def predict (env : Env) (st : State) (req : Request) : PredictOutcome :=
  match req.lora_url with
  | none =>
      { result := Except.error "Missing Lora_url parameter"
        state := st
        downloads := []
        merges := 0
        pipeCall := none
        refinerCall := none
        saves := []
        images := []
        seedUsed := none }
  | some url =>
      let lr := load_trained_weights (env.archive url) env.baseUnetSd
      let st1 : State :=
        { tuned_model := true, token_map := lr.token_map, is_lora := true }
      let seed := seedOf req.seed env.urandom2
      let prompt1 :=
        if st1.tuned_model then applyTokenMap st1.token_map req.prompt
        else req.prompt
      let mk := buildModeKwargs env req
      let kwargs1 := addRefineKwargs req.refine req.high_noise_frac mk.2
      let kwargs2 := addLoraKwargs st1.is_lora req.lora_scale kwargs1
      let common : CommonArgs :=
        { prompt := List.replicate req.num_outputs prompt1
          negative_prompt := List.replicate req.num_outputs req.negative_prompt
          guidance_scale := req.guidance_scale
          generator_seed := seed
          num_inference_steps := req.num_inference_steps }
      let images0 := env.runPipe mk.1 common kwargs2
      let refined :=
        if req.refine = "expert_ensemble_refiner" ∨
            req.refine = "base_image_refiner" then
          let refiner_kwargs : RefinerKwargs :=
            { image := images0
              denoising_start :=
                if req.refine = "expert_ensemble_refiner" then
                  some req.high_noise_frac
                else none }
          let common2 := refinerStepsArgs req.refine req.refine_steps common
          (env.runRefiner common2 refiner_kwargs,
            some (common2, refiner_kwargs))
        else (images0, none)
      let paths := output_paths refined.1
      { result :=
          if paths.length = 0 then
            Except.error
              "NSFW content detected. Try running it again, or try a different prompt."
          else Except.ok paths
        state := st1
        downloads := [url]
        merges := 1
        pipeCall := some (mk.1, common, kwargs2)
        refinerCall := refined.2
        saves := savedOutputs refined.1
        images := refined.1
        seedUsed := some seed }

/-! ### Concrete fixtures used to instantiate the theorems -/

/-- A concrete environment: every image file is 100x100, every archive
carries a full UNet file binding key `w`, the pipeline yields one image,
the refiner yields one image, and the OS entropy bytes are 255, 255. -/
def env0 : Env :=
  { diskImage := fun _ => { width := 100, height := 100 }
    archive := fun _ =>
      { unet := some fun k => if k = "w" then some 5 else none
        lora := fun _ => none
        token_map := [] }
    baseUnetSd := fun k =>
      if k = "w" then some 1 else if k = "b" then some 2 else none
    runPipe := fun _ _ _ => [7]
    runRefiner := fun _ _ => [9]
    urandom2 := (255, 255) }

/-- A variant environment whose pipelines produce no images at all. -/
def envNoImages : Env :=
  { env0 with runPipe := fun _ _ _ => [], runRefiner := fun _ _ => [] }

/-- A state in which a previous call has already loaded the adapter. -/
def stLoaded : State :=
  { tuned_model := true, token_map := [], is_lora := true }

/-- A plain text-to-image request. -/
def reqTxt : Request := { lora_url := some "u" }

/-- An image-to-image request. -/
def reqImg : Request := { lora_url := some "u", image := some "img.png" }

/-- An inpainting request. -/
def reqInpaint : Request :=
  { lora_url := some "u", image := some "img.png", mask := some "mask.png" }

/-- A request supplying a mask but no image. -/
def reqMaskOnly : Request := { lora_url := some "u", mask := some "mask.png" }

/-- A request with no adapter URL. -/
def reqNoUrl : Request := { lora_url := none }

/-- A base-image-refiner request with explicit nonzero refine steps. -/
def reqRefine : Request :=
  { lora_url := some "u", refine := "base_image_refiner",
    refine_steps := some 20 }

/-! ### Helper lemmas -/

/-- Arithmetic of the 64-rounding: `(n + 63) / 64 * 64` is the least
multiple of 64 that is at least `n`, and it equals `n` exactly when
`64 ∣ n`. -/
theorem roundup64_spec (n : Nat) :
    64 ∣ (n + 63) / 64 * 64 ∧ n ≤ (n + 63) / 64 * 64 ∧
    (n + 63) / 64 * 64 < n + 64 ∧ ((n + 63) / 64 * 64 = n ↔ 64 ∣ n) := by
  have hdm := Nat.div_add_mod (n + 63) 64
  have hlt : (n + 63) % 64 < 64 := Nat.mod_lt _ (by norm_num)
  refine ⟨dvd_mul_left 64 ((n + 63) / 64), by omega, by omega, ?_⟩
  constructor
  · intro h
    exact h ▸ dvd_mul_left 64 ((n + 63) / 64)
  · rintro ⟨c, rfl⟩
    omega

/-- The refine-mode kwargs additions leave the mode-specific entries
untouched. -/
theorem addRefineKwargs_mode_fields (r : String) (q : ℚ) (k : SdxlKwargs) :
    (addRefineKwargs r q k).image = k.image ∧
    (addRefineKwargs r q k).mask_image = k.mask_image ∧
    (addRefineKwargs r q k).strength = k.strength ∧
    (addRefineKwargs r q k).width = k.width ∧
    (addRefineKwargs r q k).height = k.height := by
  unfold addRefineKwargs
  split
  · exact ⟨rfl, rfl, rfl, rfl, rfl⟩
  · split
    · exact ⟨rfl, rfl, rfl, rfl, rfl⟩
    · exact ⟨rfl, rfl, rfl, rfl, rfl⟩

/-- The LoRA-scale kwargs addition leaves the mode-specific entries
untouched. -/
theorem addLoraKwargs_mode_fields (b : Bool) (s : ℚ) (k : SdxlKwargs) :
    (addLoraKwargs b s k).image = k.image ∧
    (addLoraKwargs b s k).mask_image = k.mask_image ∧
    (addLoraKwargs b s k).strength = k.strength ∧
    (addLoraKwargs b s k).width = k.width ∧
    (addLoraKwargs b s k).height = k.height := by
  unfold addLoraKwargs
  split
  · exact ⟨rfl, rfl, rfl, rfl, rfl⟩
  · exact ⟨rfl, rfl, rfl, rfl, rfl⟩

/-- `output_paths` has one path per image. -/
theorem output_paths_length (l : List GenImage) :
    (output_paths l).length = l.length := by
  simp [output_paths, savedOutputs]

/-- Indexed description of the save loop: the `i`-th saved pair is the
path `/tmp/out-i.png` together with the `i`-th image. -/
theorem savedOutputs_getElem (l : List GenImage) (i : Nat) (g : GenImage)
    (h : l[i]? = some g) :
    (savedOutputs l)[i]? = some ("/tmp/out-" ++ toString i ++ ".png", g) := by
  simp [savedOutputs, h]

/-! ### Claim theorems -/

/-- C2: every image returned by `load_image` has width and height rounded
up to the next multiple of 64 (the least multiple of 64 at or above the
original dimension), the image is resized exactly when at least one
dimension is not already a multiple of 64, and an image whose dimensions
are both multiples of 64 keeps its original size. -/
theorem load_image_rounds_to_64 (img : PILImage) :
    64 ∣ (load_image img).1.width ∧ 64 ∣ (load_image img).1.height ∧
    img.width ≤ (load_image img).1.width ∧
    (load_image img).1.width < img.width + 64 ∧
    img.height ≤ (load_image img).1.height ∧
    (load_image img).1.height < img.height + 64 ∧
    ((load_image img).2 = true ↔ ¬(64 ∣ img.width ∧ 64 ∣ img.height)) ∧
    (64 ∣ img.width ∧ 64 ∣ img.height → load_image img = (img, false)) := by
  have hw := roundup64_spec img.width
  have hh := roundup64_spec img.height
  simp only [load_image]
  split
  next hcond =>
    refine ⟨hw.1, hh.1, hw.2.1, hw.2.2.1, hh.2.1, hh.2.2.1, ?_, ?_⟩
    · constructor
      · intro _
        rintro ⟨d1, d2⟩
        rcases hcond with h | h
        · exact h (hw.2.2.2.mpr d1)
        · exact h (hh.2.2.2.mpr d2)
      · intro _
        rfl
    · rintro ⟨d1, d2⟩
      rcases hcond with h | h
      · exact absurd (hw.2.2.2.mpr d1) h
      · exact absurd (hh.2.2.2.mpr d2) h
  next hcond =>
    push_neg at hcond
    obtain ⟨he1, he2⟩ := hcond
    refine ⟨he1 ▸ hw.1, he2 ▸ hh.1, le_refl _, ?_, le_refl _, ?_,
      ?_, fun _ => rfl⟩
    · show img.width < img.width + 64
      omega
    · show img.height < img.height + 64
      omega
    constructor
    · intro h
      simp at h
    · intro hn
      exact absurd ⟨hw.2.2.2.mp he1, hh.2.2.2.mp he2⟩ hn

/-- C2 witness: a 128x192 image (both multiples of 64) is kept unchanged
and unresized. -/
theorem load_image_rounds_to_64_witness :
    ((64 : Nat) ∣ 128 ∧ (64 : Nat) ∣ 192) ∧
    load_image ⟨128, 192⟩ = (⟨128, 192⟩, false) :=
  ⟨⟨by decide, by decide⟩,
    (load_image_rounds_to_64 ⟨128, 192⟩).2.2.2.2.2.2.2 ⟨by decide, by decide⟩⟩

/-- C3: when the request has no `lora_url`, `predict` raises the
missing-parameter exception and performs no work at all: nothing is
downloaded or merged, no pipeline or refiner is invoked, and no file is
saved. -/
theorem predict_missing_lora_url (env : Env) (st : State) (req : Request)
    (h : req.lora_url = none) :
    (predict env st req).result = Except.error "Missing Lora_url parameter" ∧
    (predict env st req).downloads = [] ∧
    (predict env st req).merges = 0 ∧
    (predict env st req).pipeCall = none ∧
    (predict env st req).refinerCall = none ∧
    (predict env st req).saves = [] ∧
    (predict env st req).images = [] := by
  simp [predict, h]

/-- C3 witness: the concrete request with `lora_url = none`. -/
theorem predict_missing_lora_url_witness :
    reqNoUrl.lora_url = none ∧
    (predict env0 setup reqNoUrl).result =
      Except.error "Missing Lora_url parameter" ∧
    (predict env0 setup reqNoUrl).pipeCall = none ∧
    (predict env0 setup reqNoUrl).saves = [] :=
  ⟨rfl, (predict_missing_lora_url env0 setup reqNoUrl rfl).1,
    (predict_missing_lora_url env0 setup reqNoUrl rfl).2.2.2.1,
    (predict_missing_lora_url env0 setup reqNoUrl rfl).2.2.2.2.2.1⟩

/-- C6: when the archive supplies a full UNet weight file,
`load_trained_weights` merges it key by key: every key present in the
archive takes the archive's tensor, every key absent from the archive
keeps the model's tensor (and the full-UNet branch is the non-LoRA one). -/
theorem load_trained_weights_full_unet (ar : Archive)
    (sd new_unet_params : String → Option Tensor)
    (h : ar.unet = some new_unet_params) (k : String) :
    (∀ v, new_unet_params k = some v →
      (load_trained_weights ar sd).unetSd k = some v) ∧
    (new_unet_params k = none →
      (load_trained_weights ar sd).unetSd k = sd k) ∧
    (load_trained_weights ar sd).is_lora = false := by
  simp only [load_trained_weights, h]
  refine ⟨?_, ?_, trivial⟩
  · intro v hv
    simp [load_unet_merge, hv]
  · intro hv
    simp [load_unet_merge, hv]

/-- C6 witness: on the concrete archive of `env0`, key `w` takes the
archive's tensor 5 and the untouched key `b` keeps the model's tensor 2. -/
theorem load_trained_weights_full_unet_witness :
    (load_trained_weights (env0.archive "u") env0.baseUnetSd).unetSd "w" =
      some 5 ∧
    (load_trained_weights (env0.archive "u") env0.baseUnetSd).unetSd "b" =
      some 2 :=
  ⟨(load_trained_weights_full_unet (env0.archive "u") env0.baseUnetSd
      (fun k => if k = "w" then some 5 else none) rfl "w").1 5 rfl,
    ((load_trained_weights_full_unet (env0.archive "u") env0.baseUnetSd
      (fun k => if k = "w" then some 5 else none) rfl "b").2.1 rfl).trans rfl⟩

/-- Projection of the seed actually fed to the generator. -/
theorem predict_seedUsed_eq (env : Env) (st : State) (req : Request)
    (url : String) (h : req.lora_url = some url) :
    (predict env st req).seedUsed = some (seedOf req.seed env.urandom2) := by
  simp only [predict, h]

/-- C8: when the request leaves the seed blank, the seed used is the
big-endian value of the two OS-random bytes, hence always between 0 and
65535; a caller-supplied seed is used unchanged. -/
theorem predict_seed_range (env : Env) (st : State) (req : Request)
    (url : String) (h : req.lora_url = some url) :
    (req.seed = none →
      (predict env st req).seedUsed =
        some ((env.urandom2.1.val * 256 + env.urandom2.2.val : Nat) : Int) ∧
      ∃ s, (predict env st req).seedUsed = some s ∧ 0 ≤ s ∧ s ≤ 65535) ∧
    (∀ s, req.seed = some s → (predict env st req).seedUsed = some s) := by
  have hproj := predict_seedUsed_eq env st req url h
  refine ⟨fun hs => ⟨?_, ?_⟩, fun s hs => ?_⟩
  · rw [hproj, hs]
    rfl
  · refine ⟨((env.urandom2.1.val * 256 + env.urandom2.2.val : Nat) : Int),
      ?_, ?_, ?_⟩
    · rw [hproj, hs]
      rfl
    · exact Int.ofNat_nonneg _
    · have h1 := env.urandom2.1.isLt
      have h2 := env.urandom2.2.isLt
      omega
  · rw [hproj, hs]
    rfl

/-- C8 witness: with `env0`'s entropy bytes 255, 255 and a blank seed,
the seed used is 65535, inside the stated range. -/
theorem predict_seed_range_witness :
    (predict env0 setup reqTxt).seedUsed =
      some ((env0.urandom2.1.val * 256 + env0.urandom2.2.val : Nat) : Int) ∧
    ∃ s, (predict env0 setup reqTxt).seedUsed = some s ∧ 0 ≤ s ∧ s ≤ 65535 :=
  (predict_seed_range env0 setup reqTxt "u" rfl).1 rfl

/-- C5 counterexample: in a state where the adapter has already been
successfully loaded (`tuned_model = true`), the next `predict` call
fetches the archive again (`downloads = ["u"]`) and merges its weights
again (`merges = 1`), while the call itself succeeds — contradicting the
claim that after the first load no subsequent call downloads or
re-merges. -/
theorem predict_redownload_counterexample :
    stLoaded.tuned_model = true ∧
    (predict env0 stLoaded reqTxt).downloads = ["u"] ∧
    (predict env0 stLoaded reqTxt).merges = 1 ∧
    (predict env0 stLoaded reqTxt).result = Except.ok ["/tmp/out-0.png"] :=
  ⟨rfl, rfl, rfl, rfl⟩

/-- C5 amended: the adapter archive is fetched and its weights merged on
every `predict` call that passes the `lora_url` check, regardless of
what any earlier call loaded. -/
theorem predict_downloads_every_call (env : Env) (st : State)
    (req : Request) (url : String) (h : req.lora_url = some url) :
    (predict env st req).downloads = [url] ∧
    (predict env st req).merges = 1 := by
  simp [predict, h]

/-- C5 amended witness: a second call with an already-loaded state still
downloads and merges. -/
theorem predict_downloads_every_call_witness :
    (predict env0 stLoaded reqImg).downloads = ["u"] ∧
    (predict env0 stLoaded reqImg).merges = 1 :=
  predict_downloads_every_call env0 stLoaded reqImg "u" rfl

/-- Projection of the returned value: it is the NSFW-empty check applied
to the path list built from the final images. -/
theorem predict_result_eq (env : Env) (st : State) (req : Request)
    (url : String) (h : req.lora_url = some url) :
    (predict env st req).result =
      (if (output_paths (predict env st req).images).length = 0 then
        Except.error
          "NSFW content detected. Try running it again, or try a different prompt."
      else Except.ok (output_paths (predict env st req).images)) := by
  simp only [predict, h]

/-- Projection of the save events: the final images, enumerated. -/
theorem predict_saves_eq (env : Env) (st : State) (req : Request)
    (url : String) (h : req.lora_url = some url) :
    (predict env st req).saves = savedOutputs (predict env st req).images := by
  simp only [predict, h]

/-- C4: a call that passes the `lora_url` check raises the NSFW exception
precisely when the collected output-path list is empty, i.e. when the
pipeline produced no images; with at least one image it returns the
non-empty path list and raises nothing. -/
theorem predict_nsfw_iff_no_images (env : Env) (st : State) (req : Request)
    (url : String) (h : req.lora_url = some url) :
    ((predict env st req).result =
        Except.error
          "NSFW content detected. Try running it again, or try a different prompt."
      ↔ (predict env st req).images = []) ∧
    ((predict env st req).images ≠ [] →
      (predict env st req).result =
        Except.ok (output_paths (predict env st req).images) ∧
      output_paths (predict env st req).images ≠ []) := by
  have hr := predict_result_eq env st req url h
  rcases eq_or_ne (predict env st req).images [] with hn | hn
  · rw [hn] at hr
    have hz : (output_paths ([] : List GenImage)).length = 0 := rfl
    rw [if_pos hz] at hr
    exact ⟨by simp [hr, hn], fun hc => absurd hn hc⟩
  · have hlen : ¬(output_paths (predict env st req).images).length = 0 := by
      rw [output_paths_length]
      intro hz
      exact hn (List.length_eq_zero.mp hz)
    rw [if_neg hlen] at hr
    constructor
    · constructor
      · intro he
        rw [hr] at he
        exact Except.noConfusion he
      · intro hi
        exact absurd hi hn
    · intro _
      refine ⟨hr, fun hc => hlen ?_⟩
      rw [hc]
      rfl

/-- C4 witness: with pipelines that return no images, the call raises
the NSFW exception. -/
theorem predict_nsfw_iff_no_images_witness :
    (predict envNoImages setup reqTxt).result =
      Except.error
        "NSFW content detected. Try running it again, or try a different prompt." :=
  (predict_nsfw_iff_no_images envNoImages setup reqTxt "u" rfl).1.mpr rfl

/-- C7: a successful call returns exactly the ordered path list of the
final images: one path per image, path `i` being `/tmp/out-i.png`, and
the `i`-th save writes the `i`-th image to that path. -/
theorem predict_ordered_output_paths (env : Env) (st : State)
    (req : Request) (url : String) (paths : List String)
    (h : req.lora_url = some url)
    (hok : (predict env st req).result = Except.ok paths) :
    paths = output_paths (predict env st req).images ∧
    paths.length = (predict env st req).images.length ∧
    ∀ (i : Nat) (g : GenImage), (predict env st req).images[i]? = some g →
      paths[i]? = some ("/tmp/out-" ++ toString i ++ ".png") ∧
      (predict env st req).saves[i]? =
        some ("/tmp/out-" ++ toString i ++ ".png", g) := by
  have hr := predict_result_eq env st req url h
  have hs := predict_saves_eq env st req url h
  rw [hok] at hr
  by_cases hz : (output_paths (predict env st req).images).length = 0
  · rw [if_pos hz] at hr
    exact Except.noConfusion hr
  · rw [if_neg hz] at hr
    have hp : paths = output_paths (predict env st req).images := by
      injection hr
    refine ⟨hp, by rw [hp, output_paths_length], ?_⟩
    intro i g hg
    constructor
    · rw [hp]
      unfold output_paths
      rw [List.getElem?_map, savedOutputs_getElem _ i g hg]
      rfl
    · rw [hs, savedOutputs_getElem _ i g hg]

/-- C7 witness: the concrete text-to-image call whose pipeline yields one
image returns the single path `/tmp/out-0.png`. -/
theorem predict_ordered_output_paths_witness :
    ["/tmp/out-0.png"] = output_paths (predict env0 setup reqTxt).images ∧
    (["/tmp/out-0.png"] : List String).length =
      (predict env0 setup reqTxt).images.length ∧
    ∀ (i : Nat) (g : GenImage), (predict env0 setup reqTxt).images[i]? = some g →
      (["/tmp/out-0.png"] : List String)[i]? =
        some ("/tmp/out-" ++ toString i ++ ".png") ∧
      (predict env0 setup reqTxt).saves[i]? =
        some ("/tmp/out-" ++ toString i ++ ".png", g) :=
  predict_ordered_output_paths env0 setup reqTxt "u" ["/tmp/out-0.png"] rfl rfl

/-- Projection of the single pipeline call made by a request that passes
the `lora_url` check: the mode and mode kwargs come from the three-way
branch, the common args carry the token-substituted prompt replicated
`num_outputs` times, the seed, the guidance scale and the step count,
and the kwargs pick up the refine and LoRA-scale entries. -/
theorem predict_pipeCall_eq (env : Env) (st : State) (req : Request)
    (url : String) (h : req.lora_url = some url) :
    (predict env st req).pipeCall =
      some ((buildModeKwargs env req).1,
        { prompt := List.replicate req.num_outputs
            (applyTokenMap
              (load_trained_weights (env.archive url) env.baseUnetSd).token_map
              req.prompt)
          negative_prompt := List.replicate req.num_outputs req.negative_prompt
          guidance_scale := req.guidance_scale
          generator_seed := seedOf req.seed env.urandom2
          num_inference_steps := req.num_inference_steps },
        addLoraKwargs true req.lora_scale
          (addRefineKwargs req.refine req.high_noise_frac
            (buildModeKwargs env req).2)) := by
  simp only [predict, h, if_true]

/-- C1: the single pipeline call of a request that passes the `lora_url`
check is selected by the presence of the optional image and mask: both
present runs the inpainting pipeline with the loaded image, the loaded
mask and `prompt_strength` as `strength`; image without mask runs the
image-to-image pipeline with the loaded image and `prompt_strength` as
`strength` (and no mask entry); no image runs the text-to-image pipeline
with `width` and `height`. -/
theorem predict_three_mode_selection (env : Env) (st : State)
    (req : Request) (url : String) (h : req.lora_url = some url) :
    (∀ ip mp, req.image = some ip → req.mask = some mp →
      ∃ c k, (predict env st req).pipeCall = some (Mode.inpaint, c, k) ∧
        k.image = some (load_image (env.diskImage ip)).1 ∧
        k.mask_image = some (load_image (env.diskImage mp)).1 ∧
        k.strength = some req.prompt_strength) ∧
    (∀ ip, req.image = some ip → req.mask = none →
      ∃ c k, (predict env st req).pipeCall = some (Mode.img2img, c, k) ∧
        k.image = some (load_image (env.diskImage ip)).1 ∧
        k.mask_image = none ∧
        k.strength = some req.prompt_strength) ∧
    (req.image = none →
      ∃ c k, (predict env st req).pipeCall = some (Mode.txt2img, c, k) ∧
        k.width = some req.width ∧ k.height = some req.height) := by
  have hp := predict_pipeCall_eq env st req url h
  refine ⟨?_, ?_, ?_⟩
  · intro ip mp hi hm
    rw [hp]
    have hb : buildModeKwargs env req =
        (Mode.inpaint,
          { image := some (load_image (env.diskImage ip)).1
            mask_image := some (load_image (env.diskImage mp)).1
            strength := some req.prompt_strength
            target_size := some ((load_image (env.diskImage ip)).1.width,
              (load_image (env.diskImage ip)).1.height)
            original_size := some ((load_image (env.diskImage ip)).1.width,
              (load_image (env.diskImage ip)).1.height) }) := by
      simp [buildModeKwargs, hi, hm]
    rw [hb]
    refine ⟨_, _, rfl, ?_, ?_, ?_⟩
    · rw [(addLoraKwargs_mode_fields _ _ _).1, (addRefineKwargs_mode_fields _ _ _).1]
    · rw [(addLoraKwargs_mode_fields _ _ _).2.1,
        (addRefineKwargs_mode_fields _ _ _).2.1]
    · rw [(addLoraKwargs_mode_fields _ _ _).2.2.1,
        (addRefineKwargs_mode_fields _ _ _).2.2.1]
  · intro ip hi hm
    rw [hp]
    have hb : buildModeKwargs env req =
        (Mode.img2img,
          { image := some (load_image (env.diskImage ip)).1
            strength := some req.prompt_strength }) := by
      simp [buildModeKwargs, hi, hm]
    rw [hb]
    refine ⟨_, _, rfl, ?_, ?_, ?_⟩
    · rw [(addLoraKwargs_mode_fields _ _ _).1, (addRefineKwargs_mode_fields _ _ _).1]
    · rw [(addLoraKwargs_mode_fields _ _ _).2.1,
        (addRefineKwargs_mode_fields _ _ _).2.1]
    · rw [(addLoraKwargs_mode_fields _ _ _).2.2.1,
        (addRefineKwargs_mode_fields _ _ _).2.2.1]
  · intro hi
    rw [hp]
    have hb : buildModeKwargs env req =
        (Mode.txt2img, { width := some req.width, height := some req.height }) := by
      simp [buildModeKwargs, hi]
    rw [hb]
    refine ⟨_, _, rfl, ?_, ?_⟩
    · rw [(addLoraKwargs_mode_fields _ _ _).2.2.2.1,
        (addRefineKwargs_mode_fields _ _ _).2.2.2.1]
    · rw [(addLoraKwargs_mode_fields _ _ _).2.2.2.2,
        (addRefineKwargs_mode_fields _ _ _).2.2.2.2]

/-- C1 witness: the concrete inpainting request picks the inpainting
pipeline with the loaded image, the loaded mask and its prompt strength. -/
theorem predict_three_mode_selection_witness :
    ∃ c k, (predict env0 setup reqInpaint).pipeCall =
        some (Mode.inpaint, c, k) ∧
      k.image = some (load_image (env0.diskImage "img.png")).1 ∧
      k.mask_image = some (load_image (env0.diskImage "mask.png")).1 ∧
      k.strength = some reqInpaint.prompt_strength :=
  (predict_three_mode_selection env0 setup reqInpaint "u" rfl).1
    "img.png" "mask.png" rfl rfl

/-- C9: a request with a mask but no image behaves exactly like the same
request without the mask: the whole outcome is unchanged, the call runs
the text-to-image pipeline with no mask entry, and (mask or not) a
non-empty pipeline output is returned without an exception. -/
theorem predict_mask_without_image (env : Env) (st : State) (req : Request)
    (mp : String) (himg : req.image = none) (hmask : req.mask = some mp) :
    predict env st req = predict env st { req with mask := none } ∧
    ∀ url, req.lora_url = some url →
      (∃ c k, (predict env st req).pipeCall = some (Mode.txt2img, c, k) ∧
        k.mask_image = none) ∧
      ((predict env st req).images ≠ [] →
        (predict env st req).result =
          Except.ok (output_paths (predict env st req).images)) := by
  constructor
  · have him' : ({ req with mask := none } : Request).image = none := himg
    rcases hu : req.lora_url with _ | url
    · have hu' : ({ req with mask := none } : Request).lora_url = none := hu
      simp [predict, hu, hu']
    · have hu' : ({ req with mask := none } : Request).lora_url = some url := hu
      simp [predict, hu, hu', buildModeKwargs, himg, him']
  · intro url hurl
    constructor
    · have hp := predict_pipeCall_eq env st req url hurl
      rw [hp]
      have hb : buildModeKwargs env req =
          (Mode.txt2img,
            { width := some req.width, height := some req.height }) := by
        simp [buildModeKwargs, himg]
      rw [hb]
      refine ⟨_, _, rfl, ?_⟩
      rw [(addLoraKwargs_mode_fields _ _ _).2.1,
        (addRefineKwargs_mode_fields _ _ _).2.1]
    · intro hne
      have hr := predict_result_eq env st req url hurl
      have hlen : ¬(output_paths (predict env st req).images).length = 0 := by
        rw [output_paths_length]
        intro hz
        exact hne (List.length_eq_zero.mp hz)
      rw [if_neg hlen] at hr
      exact hr

/-- C9 witness: the concrete mask-only request is indistinguishable from
its maskless twin and runs the text-to-image pipeline. -/
theorem predict_mask_without_image_witness :
    predict env0 setup reqMaskOnly =
      predict env0 setup { reqMaskOnly with mask := none } ∧
    ∃ c k, (predict env0 setup reqMaskOnly).pipeCall =
        some (Mode.txt2img, c, k) ∧ k.mask_image = none :=
  ⟨(predict_mask_without_image env0 setup reqMaskOnly "mask.png" rfl rfl).1,
    ((predict_mask_without_image env0 setup reqMaskOnly "mask.png" rfl rfl).2
      "u" rfl).1⟩

/-- Step-count selection of the base-image-refiner hand-off: a supplied
nonzero `refine_steps` wins, `None` or 0 falls back to the common args'
step count. -/
theorem refinerStepsArgs_base (rs : Option Int) (common : CommonArgs) :
    (∀ n, rs = some n → n ≠ 0 →
      (refinerStepsArgs "base_image_refiner" rs common).num_inference_steps
        = n) ∧
    ((rs = none ∨ rs = some 0) →
      (refinerStepsArgs "base_image_refiner" rs common).num_inference_steps
        = common.num_inference_steps) := by
  constructor
  · intro n hn hne
    subst hn
    simp [refinerStepsArgs, hne]
  · rintro (rfl | rfl)
    · rfl
    · simp [refinerStepsArgs]

/-- C10: with `refine = "base_image_refiner"`, the refiner call uses
`refine_steps` as its step count only when `refine_steps` is supplied and
nonzero, and falls back to the request's `num_inference_steps` when
`refine_steps` is `None` or 0. -/
theorem predict_refine_steps_selection (env : Env) (st : State)
    (req : Request) (url : String) (h : req.lora_url = some url)
    (hr : req.refine = "base_image_refiner") :
    ∃ c2 rkw, (predict env st req).refinerCall = some (c2, rkw) ∧
      (∀ n, req.refine_steps = some n → n ≠ 0 →
        c2.num_inference_steps = n) ∧
      ((req.refine_steps = none ∨ req.refine_steps = some 0) →
        c2.num_inference_steps = req.num_inference_steps) := by
  simp only [predict, h, hr, if_true, or_true]
  refine ⟨_, _, rfl, ?_, ?_⟩
  · intro n hn hne
    exact (refinerStepsArgs_base req.refine_steps _).1 n hn hne
  · exact (refinerStepsArgs_base req.refine_steps _).2

/-- C10 witness: the concrete base-image-refiner request with
`refine_steps = 20`. -/
theorem predict_refine_steps_selection_witness :
    ∃ c2 rkw, (predict env0 setup reqRefine).refinerCall =
        some (c2, rkw) ∧
      (∀ n, reqRefine.refine_steps = some n → n ≠ 0 →
        c2.num_inference_steps = n) ∧
      ((reqRefine.refine_steps = none ∨ reqRefine.refine_steps = some 0) →
        c2.num_inference_steps = reqRefine.num_inference_steps) :=
  predict_refine_steps_selection env0 setup reqRefine "u" rfl rfl

end RealVisXL
